import Mathlib

/-!
Verification of the background financial-processing engine of the
financeScan2 repository, following src/lib/inngest/function.js.

Dates are modelled at calendar-day granularity as (year, month, day)
triples, with the month zero-based as in the host JavaScript Date API.
Field arithmetic (setDate, setMonth, setFullYear) is modelled together
with the normalization the Date API performs when a field overflows.
The relational store is modelled as lists of rows, a Prisma
interactive transaction as an all-or-nothing state update, and the
amount/balance decimals as rational numbers.
-/

/-- Calendar date at day granularity: JavaScript Date fields
getFullYear / getMonth (zero-based) / getDate (one-based). -/
structure JSDate where
  year : Nat
  month : Nat
  day : Nat
deriving DecidableEq

/-- Gregorian leap-year rule used by the host calendar. -/
def isLeapYear (y : Nat) : Bool :=
  y % 4 == 0 && (y % 100 != 0 || y % 400 == 0)

/-- Number of days of month `m` (zero-based) in year `y`. -/
def daysInMonth (y m : Nat) : Nat :=
  if m = 1 then (if isLeapYear y then 29 else 28)
  else if m = 3 ∨ m = 5 ∨ m = 8 ∨ m = 10 then 30
  else 31

/-- Day-overflow normalization of the JavaScript Date API: while the
day-of-month field exceeds the length of the current month, roll the
excess into the following month.  The first argument is fuel; any fuel
at least the day field makes the recursion complete. -/
def normDaysAux : Nat → Nat → Nat → Nat → JSDate
  | 0, y, m, day => ⟨y, m, day⟩
  | fuel + 1, y, m, day =>
    if daysInMonth y m < day then
      if m = 11 then normDaysAux fuel (y + 1) 0 (day - daysInMonth y m)
      else normDaysAux fuel y (m + 1) (day - daysInMonth y m)
    else ⟨y, m, day⟩

/-- Normalize a (year, month, day) field triple whose day may overflow
the month, as the JavaScript Date API does after setDate / setMonth /
setFullYear. -/
def normDays (y m day : Nat) : JSDate :=
  normDaysAux day y m day

/-- Strict chronological order on calendar dates (the comparison the
JavaScript `<` performs on Date values, at day granularity). -/
def dateLt (a b : JSDate) : Bool :=
  decide (a.year < b.year) ||
    (decide (a.year = b.year) &&
      (decide (a.month < b.month) ||
        (decide (a.month = b.month) && decide (a.day < b.day))))

/-- Chronological order on calendar dates (the comparison the
JavaScript `<=` performs on Date values, at day granularity). -/
def dateLe (a b : JSDate) : Bool :=
  decide (a.year < b.year) ||
    (decide (a.year = b.year) &&
      (decide (a.month < b.month) ||
        (decide (a.month = b.month) && decide (a.day ≤ b.day))))

/-- The value of `new Date(null)`: null coerces to timestamp 0, the
epoch 1970-01-01. -/
def epochDate : JSDate := ⟨1970, 0, 1⟩

/-- Embedding of `calculateNextRecurringDate(date, interval)`:
switch over the interval string, advancing the date by one day, seven
days, one month or one year using Date field arithmetic (with the
normalization of the host calendar), and returning the input date
unchanged when no case matches (including an absent interval). -/
def calculateNextRecurringDate (date : JSDate) (interval : Option String) : JSDate :=
  match interval with
  | none => date
  | some i =>
    if i = "DAILY" then normDays date.year date.month (date.day + 1)
    else if i = "WEEKLY" then normDays date.year date.month (date.day + 7)
    else if i = "MONTHLY" then
      -- setMonth(getMonth() + 1): month 11 rolls into January of the next year
      if date.month = 11 then normDays (date.year + 1) 0 date.day
      else normDays date.year (date.month + 1) date.day
    else if i = "YEARLY" then normDays (date.year + 1) date.month date.day
    else date

/-- Ledger posting / recurring template row of the Transaction table. -/
structure Transaction where
  id : Nat
  userId : Nat
  accountId : Nat
  type : String
  amount : Rat
  description : String
  date : JSDate
  category : String
  status : String
  isRecurring : Bool
  recurringInterval : Option String
  lastProcessed : Option JSDate
  nextRecurringDate : Option JSDate
deriving DecidableEq

/-- Account row. -/
structure Account where
  id : Nat
  userId : Nat
  name : String
  balance : Rat
  isDefault : Bool
deriving DecidableEq

/-- Budget row. -/
structure Budget where
  id : Nat
  userId : Nat
  amount : Rat
  lastAlertSent : Option JSDate
deriving DecidableEq

/-- The relational store. -/
structure DB where
  transactions : List Transaction
  accounts : List Account
  budgets : List Budget
deriving DecidableEq

/-- Embedding of `db.transaction.findUnique({ where: { id, userId } })`. -/
def findTransaction (db : DB) (tid uid : Nat) : Option Transaction :=
  db.transactions.find? (fun t => t.id == tid && t.userId == uid)

/-- Lookup of an account row by id. -/
def findAccount (db : DB) (aid : Nat) : Option Account :=
  db.accounts.find? (fun a => a.id == aid)

/-- Lookup of a budget row by id. -/
def findBudget (db : DB) (bid : Nat) : Option Budget :=
  db.budgets.find? (fun b => b.id == bid)

/-- Embedding of `isTransactionDue(transaction)`: due when
lastProcessed is unset; otherwise compare
`new Date(transaction.nextRecurringDate) <= new Date()`, where a null
nextRecurringDate coerces to the epoch. -/
def isTransactionDue (now : JSDate) (t : Transaction) : Bool :=
  match t.lastProcessed with
  | none => true
  | some _ => dateLe (t.nextRecurringDate.getD epochDate) now

/-- The posting spawned by the Processor from a due template: a
non-recurring copy dated now, with the description marker appended.
The create does not set status; the schema default of the store
applies, which none of the verified properties observe. -/
def spawnedPosting (now : JSDate) (freshId : Nat) (t : Transaction) : Transaction :=
  { id := freshId
    userId := t.userId
    accountId := t.accountId
    type := t.type
    amount := t.amount
    description := t.description ++ " (Recurring)"
    date := now
    category := t.category
    status := "COMPLETED"
    isRecurring := false
    recurringInterval := none
    lastProcessed := none
    nextRecurringDate := none }

/-- The signed balance delta of the Processor:
`transaction.type === "EXPENSE" ? -amount : amount`. -/
def balanceChange (t : Transaction) : Rat :=
  if t.type = "EXPENSE" then -t.amount else t.amount

/-- Embedding of `tx.account.update({ where: { id }, data: { balance:
{ increment } } })` over the account list. -/
def updateAccountBalance (accounts : List Account) (aid : Nat) (ch : Rat) : List Account :=
  accounts.map (fun a => if a.id == aid then { a with balance := a.balance + ch } else a)

/-- Embedding of `tx.transaction.update({ where: { id: transaction.id
} })` setting lastProcessed to now and nextRecurringDate to the next
occurrence, applied row-wise. -/
def updateTemplateRow (now : JSDate) (t : Transaction) (u : Transaction) : Transaction :=
  if u.id == t.id then
    { u with
      lastProcessed := some now
      nextRecurringDate := some (calculateNextRecurringDate now t.recurringInterval) }
  else u

/-- The interactive store transaction of the Processor
(`db.$transaction`): create the spawned posting, update the account
balance, update the template.  The balanceUpdateFails oracle forces
the middle step to fail; any failing step aborts the unit with no
committed effect (`none`). -/
def runAtomicUnit (now : JSDate) (freshId : Nat) (balanceUpdateFails : Bool)
    (t : Transaction) (db : DB) : Option DB :=
  let db1 : DB := { db with transactions := db.transactions ++ [spawnedPosting now freshId t] }
  if balanceUpdateFails then none
  else
    let db2 : DB :=
      { db1 with accounts := updateAccountBalance db1.accounts t.accountId (balanceChange t) }
    let db3 : DB := { db2 with transactions := db2.transactions.map (updateTemplateRow now t) }
    some db3

/-- Payload of the "transaction.recurring.process" event; a missing
field is `none`. -/
structure RecurringEvent where
  transactionId : Option Nat
  userId : Option Nat
deriving DecidableEq

/-- Outcome reported by one Processor invocation. -/
inductive ProcResult
  | invalidEvent
  | noop
  | processed
  | txFailed
deriving DecidableEq

/-- Result of one Processor invocation: the reported outcome, the
committed store state, and counts of store reads performed and store
writes committed. -/
structure ProcOut where
  result : ProcResult
  db : DB
  storeReads : Nat
  storeWrites : Nat
deriving DecidableEq

/-- Embedding of the body of `processRecurringTransaction`: validate
the event payload (missing transactionId or userId is a returned
validation failure, before any store access); re-fetch the template by
(id, userId); if absent or not due, no-op; otherwise run the atomic
unit, which either commits all three writes or rolls back. -/
def processRecurringTransaction (now : JSDate) (freshId : Nat)
    (balanceUpdateFails : Bool) (ev : RecurringEvent) (db : DB) : ProcOut :=
  match ev.transactionId, ev.userId with
  | some tid, some uid =>
    match findTransaction db tid uid with
    | none => ⟨ProcResult.noop, db, 1, 0⟩
    | some t =>
      if isTransactionDue now t then
        match runAtomicUnit now freshId balanceUpdateFails t db with
        | none => ⟨ProcResult.txFailed, db, 1, 0⟩
        | some db3 => ⟨ProcResult.processed, db3, 1, 3⟩
      else ⟨ProcResult.noop, db, 1, 0⟩
  | _, _ => ⟨ProcResult.invalidEvent, db, 0, 0⟩

/-- The where-clause of the Due-Transaction Selector
(`triggerRecurringTransactions` fetch step): isRecurring, status
COMPLETED, and lastProcessed null or nextRecurringDate set and at most
now (a comparison filter never matches a null column). -/
def dueFilterPred (now : JSDate) (t : Transaction) : Bool :=
  t.isRecurring && t.status == "COMPLETED" &&
    (t.lastProcessed.isNone ||
      (match t.nextRecurringDate with
       | some d => dateLe d now
       | none => false))

/-- Embedding of the read-only fetch of the Due-Transaction Selector. -/
def fetchDueRecurring (now : JSDate) (db : DB) : List Transaction :=
  db.transactions.filter (dueFilterPred now)

/-- The aggregate computed by `getMonthlyStats`. -/
structure Stats where
  totalExpenses : Rat
  totalIncome : Rat
  byCategory : List (String × Rat)
  transactionCount : Nat
deriving DecidableEq

/-- Key lookup in the byCategory object, modelled as an association
list preserving insertion order. -/
def lookupCat : List (String × Rat) → String → Option Rat
  | [], _ => none
  | (k, v) :: rest, c => if k = c then some v else lookupCat rest c

/-- Key assignment in the byCategory object: an existing key keeps its
position, a new key is appended. -/
def setCat : List (String × Rat) → String → Rat → List (String × Rat)
  | [], c, v => [(c, v)]
  | (k, w) :: rest, c, v =>
    if k = c then (k, v) :: rest else (k, w) :: setCat rest c v

/-- Embedding of `stats.byCategory[cat] = (stats.byCategory[cat] || 0)
+ amount`. -/
def bumpCategory (m : List (String × Rat)) (c : String) (v : Rat) : List (String × Rat) :=
  setCat m c ((lookupCat m c).getD 0 + v)

/-- The summed amount recorded under a category label (0 when the
label is absent). -/
def categoryTotal (m : List (String × Rat)) (c : String) : Rat :=
  (lookupCat m c).getD 0

/-- One step of the reducer of `getMonthlyStats`: an EXPENSE posting
adds to totalExpenses and to its category bucket, any other posting
adds to totalIncome. -/
def statsStep (s : Stats) (t : Transaction) : Stats :=
  if t.type = "EXPENSE" then
    { s with
      totalExpenses := s.totalExpenses + t.amount
      byCategory := bumpCategory s.byCategory t.category t.amount }
  else
    { s with totalIncome := s.totalIncome + t.amount }

/-- Sum of the amounts of a list of postings. -/
def sumAmounts (l : List Transaction) : Rat :=
  (l.map Transaction.amount).sum

/-- The value of `new Date(year, month, 1)`: the first day of the
reference month. -/
def startOfMonthDate (month : JSDate) : JSDate :=
  ⟨month.year, month.month, 1⟩

/-- The value of `new Date(year, month + 1, 0)`: day zero of the
following month, i.e. the last day of the reference month. -/
def endOfMonthDate (month : JSDate) : JSDate :=
  ⟨month.year, month.month, daysInMonth month.year month.month⟩

/-- The where-clause of the fetch of `getMonthlyStats`: rows of the
owner dated within the closed month interval. -/
def inMonthRange (uid : Nat) (month : JSDate) (t : Transaction) : Bool :=
  t.userId == uid && dateLe (startOfMonthDate month) t.date &&
    dateLe t.date (endOfMonthDate month)

/-- Embedding of `getMonthlyStats(userId, month)`: fetch the postings
of the owner dated within the month and reduce them, starting from
zero totals, an empty category object and the fetched count. -/
def getMonthlyStats (db : DB) (uid : Nat) (month : JSDate) : Stats :=
  let txs := db.transactions.filter (inMonthRange uid month)
  txs.foldl statsStep
    { totalExpenses := 0
      totalIncome := 0
      byCategory := []
      transactionCount := txs.length }

/-- The default-flagged account of an owner, as fetched by the budget
check (`accounts: { where: { isDefault: true } }`, first element). -/
def defaultAccountOf (db : DB) (uid : Nat) : Option Account :=
  db.accounts.find? (fun a => a.userId == uid && a.isDefault)

/-- The month-to-date EXPENSE aggregate of the budget check: postings
of the owner on the given account, of type EXPENSE, dated at or after
the first day of the current month. -/
def monthToDateExpenses (db : DB) (uid aid : Nat) (now : JSDate) : Rat :=
  ((db.transactions.filter (fun t =>
      t.userId == uid && t.accountId == aid && t.type == "EXPENSE" &&
        dateLe (startOfMonthDate now) t.date)).map Transaction.amount).sum

/-- The computed `percentageUsed = (totalExpenses / budgetAmount) * 100`. -/
def percentageUsed (db : DB) (uid aid : Nat) (amount : Rat) (now : JSDate) : Rat :=
  monthToDateExpenses db uid aid now / amount * 100

/-- Embedding of `db.budget.update({ where: { id }, data: {
lastAlertSent: new Date() } })`. -/
def updateBudgetAlert (db : DB) (bid : Nat) (now : JSDate) : DB :=
  { db with
    budgets := db.budgets.map (fun b =>
      if b.id == bid then { b with lastAlertSent := some now } else b) }

/-- Outcome of the budget check for one budget. -/
inductive AlertOutcome
  | skipped
  | sent
  | sendFailed
deriving DecidableEq

/-- Embedding of the per-budget body of `checkBudgetAlerts`: resolve
the default account (skip silently when absent), compute
percentageUsed, and when it is at least 80 with lastAlertSent unset,
send the notification and only then persist lastAlertSent.  The
emailFails oracle makes the send throw, which aborts the step before
the persist runs. -/
def checkBudgetAlert (now : JSDate) (emailFails : Bool) (db : DB) (b : Budget) :
    AlertOutcome × DB :=
  match defaultAccountOf db b.userId with
  | none => (AlertOutcome.skipped, db)
  | some acct =>
    if 80 ≤ percentageUsed db b.userId acct.id b.amount now ∧ b.lastAlertSent = none then
      if emailFails then (AlertOutcome.sendFailed, db)
      else (AlertOutcome.sent, updateBudgetAlert db b.id now)
    else (AlertOutcome.skipped, db)

/-- Reference date used by concrete witness scenarios. -/
def witnessNow : JSDate := ⟨2024, 5, 15⟩

/-- A due recurring EXPENSE template (never processed). -/
def recurTemplate : Transaction :=
  { id := 1
    userId := 2
    accountId := 3
    type := "EXPENSE"
    amount := 50
    description := "Rent"
    date := ⟨2024, 4, 1⟩
    category := "housing"
    status := "COMPLETED"
    isRecurring := true
    recurringInterval := some "DAILY"
    lastProcessed := none
    nextRecurringDate := none }

/-- Store holding the due template and its owning account. -/
def procDB : DB :=
  { transactions := [recurTemplate]
    accounts := [{ id := 3, userId := 2, name := "Main", balance := 100, isDefault := true }]
    budgets := [] }

/-- A budget of amount 100 with no alert sent yet. -/
def alertBudget : Budget :=
  { id := 1, userId := 2, amount := 100, lastAlertSent := none }

/-- Store with month-to-date expenses of 85 on the default account of
the owner of the budget. -/
def alertDB : DB :=
  { transactions :=
      [{ id := 9
         userId := 2
         accountId := 3
         type := "EXPENSE"
         amount := 85
         description := "Groceries"
         date := ⟨2024, 5, 10⟩
         category := "food"
         status := "COMPLETED"
         isRecurring := false
         recurringInterval := none
         lastProcessed := none
         nextRecurringDate := none }]
    accounts := [{ id := 3, userId := 2, name := "Main", balance := 100, isDefault := true }]
    budgets := [alertBudget] }

/-- Reference month (January 2024) of the aggregation example. -/
def statsMonth : JSDate := ⟨2024, 0, 15⟩

/-- Store holding the postings EXPENSE 50 food, EXPENSE 30 food and
INCOME 200 of owner 1, all dated within January 2024. -/
def statsDB : DB :=
  { transactions :=
      [{ id := 1, userId := 1, accountId := 3, type := "EXPENSE", amount := 50,
         description := "a", date := ⟨2024, 0, 5⟩, category := "food",
         status := "COMPLETED", isRecurring := false, recurringInterval := none,
         lastProcessed := none, nextRecurringDate := none },
       { id := 2, userId := 1, accountId := 3, type := "EXPENSE", amount := 30,
         description := "b", date := ⟨2024, 0, 10⟩, category := "food",
         status := "COMPLETED", isRecurring := false, recurringInterval := none,
         lastProcessed := none, nextRecurringDate := none },
       { id := 3, userId := 1, accountId := 3, type := "INCOME", amount := 200,
         description := "c", date := ⟨2024, 0, 20⟩, category := "salary",
         status := "COMPLETED", isRecurring := false, recurringInterval := none,
         lastProcessed := none, nextRecurringDate := none }]
    accounts := []
    budgets := [] }

/-- Every month has at least 28 days. -/
theorem daysInMonth_ge (y m : Nat) : 28 ≤ daysInMonth y m := by
  unfold daysInMonth
  split
  · split <;> omega
  · split <;> omega

/-- Day-overflow normalization only moves forward: the result either
reaches a later year, or a later month of the same year, or keeps the
month and the day value. -/
theorem normDaysAux_lex (fuel : Nat) :
    ∀ y m day : Nat, 1 ≤ day → day ≤ fuel →
      y < (normDaysAux fuel y m day).year ∨
        ((normDaysAux fuel y m day).year = y ∧
          (m < (normDaysAux fuel y m day).month ∨
            ((normDaysAux fuel y m day).month = m ∧
              (normDaysAux fuel y m day).day = day))) := by
  induction fuel with
  | zero => intro y m day h1 h2; omega
  | succ n ih =>
    intro y m day h1 h2
    have hge := daysInMonth_ge y m
    simp only [normDaysAux]
    by_cases hd : daysInMonth y m < day
    · rw [if_pos hd]
      by_cases hm : m = 11
      · rw [if_pos hm]
        have h3 := ih (y + 1) 0 (day - daysInMonth y m) (by omega) (by omega)
        rcases h3 with h3 | ⟨h3, _⟩
        · left; omega
        · left; omega
      · rw [if_neg hm]
        have h3 := ih y (m + 1) (day - daysInMonth y m) (by omega) (by omega)
        rcases h3 with h3 | ⟨h3, h4 | ⟨h4, _⟩⟩
        · left; exact h3
        · right; exact ⟨h3, Or.inl (by omega)⟩
        · right; exact ⟨h3, Or.inl (by omega)⟩
    · rw [if_neg hd]
      right
      exact ⟨rfl, Or.inr ⟨rfl, rfl⟩⟩

/-- Version of the previous lemma for `normDays`. -/
theorem normDays_lex (y m day : Nat) (h1 : 1 ≤ day) :
    y < (normDays y m day).year ∨
      ((normDays y m day).year = y ∧
        (m < (normDays y m day).month ∨
          ((normDays y m day).month = m ∧ (normDays y m day).day = day))) :=
  normDaysAux_lex day y m day h1 (Nat.le_refl day)

/-- Arithmetic reading of `dateLt`. -/
theorem dateLt_eq_true (a b : JSDate) :
    dateLt a b = true ↔
      (a.year < b.year ∨
        (a.year = b.year ∧
          (a.month < b.month ∨ (a.month = b.month ∧ a.day < b.day)))) := by
  simp [dateLt]

/-- Arithmetic reading of `dateLe`. -/
theorem dateLe_eq_true (a b : JSDate) :
    dateLe a b = true ↔
      (a.year < b.year ∨
        (a.year = b.year ∧
          (a.month < b.month ∨ (a.month = b.month ∧ a.day ≤ b.day)))) := by
  simp [dateLe]

/-- Strict order in one direction refutes the weak order in the other. -/
theorem dateLe_false_of_dateLt (a b : JSDate) (h : dateLt a b = true) :
    dateLe b a = false := by
  rw [dateLt_eq_true] at h
  cases hq : dateLe b a
  · rfl
  · rw [dateLe_eq_true] at hq
    omega

/-- Core of the recurrence-progress property: each of the four known
intervals advances any date with a positive day field to a strictly
later date. -/
theorem dateLt_calcNext (d : JSDate) (hd : 1 ≤ d.day) (i : String)
    (hi : i = "DAILY" ∨ i = "WEEKLY" ∨ i = "MONTHLY" ∨ i = "YEARLY") :
    dateLt d (calculateNextRecurringDate d (some i)) = true := by
  rcases hi with hi | hi | hi | hi <;> subst hi
  · have e : calculateNextRecurringDate d (some "DAILY")
        = normDays d.year d.month (d.day + 1) := rfl
    rw [e, dateLt_eq_true]
    have h := normDays_lex d.year d.month (d.day + 1) (by omega)
    omega
  · have e : calculateNextRecurringDate d (some "WEEKLY")
        = normDays d.year d.month (d.day + 7) := rfl
    rw [e, dateLt_eq_true]
    have h := normDays_lex d.year d.month (d.day + 7) (by omega)
    omega
  · have e : calculateNextRecurringDate d (some "MONTHLY")
        = if d.month = 11 then normDays (d.year + 1) 0 d.day
          else normDays d.year (d.month + 1) d.day := rfl
    rw [e]
    by_cases hm : d.month = 11
    · rw [if_pos hm, dateLt_eq_true]
      have h := normDays_lex (d.year + 1) 0 d.day hd
      omega
    · rw [if_neg hm, dateLt_eq_true]
      have h := normDays_lex d.year (d.month + 1) d.day hd
      omega
  · have e : calculateNextRecurringDate d (some "YEARLY")
        = normDays (d.year + 1) d.month d.day := rfl
    rw [e, dateLt_eq_true]
    have h := normDays_lex (d.year + 1) d.month d.day hd
    omega

/-- C7: for every date with a positive day field and every interval
among DAILY, WEEKLY, MONTHLY and YEARLY, `calculateNextRecurringDate`
returns a strictly later date, and rollover follows the host calendar
normalization (January 31 of 2025 plus one month lands on March 3),
not a fixed day count. -/
theorem nextOccurrence_strictly_later (d : JSDate) (hd : 1 ≤ d.day) (i : String)
    (hi : i = "DAILY" ∨ i = "WEEKLY" ∨ i = "MONTHLY" ∨ i = "YEARLY") :
    dateLt d (calculateNextRecurringDate d (some i)) = true ∧
      calculateNextRecurringDate ⟨2025, 0, 31⟩ (some "MONTHLY") = ⟨2025, 2, 3⟩ :=
  ⟨dateLt_calcNext d hd i hi, by decide⟩

/-- Witness for C7 at a concrete date and interval. -/
theorem nextOccurrence_strictly_later_witness :
    dateLt ⟨2024, 5, 15⟩ (calculateNextRecurringDate ⟨2024, 5, 15⟩ (some "WEEKLY")) = true :=
  (nextOccurrence_strictly_later ⟨2024, 5, 15⟩ (by decide) "WEEKLY"
    (Or.inr (Or.inl rfl))).1

/-- C8: for every date and every interval value outside the four known
kinds (including an absent interval), `calculateNextRecurringDate`
returns the input date unchanged. -/
theorem nextOccurrence_unknown_interval_noop (d : JSDate) (i : Option String)
    (h1 : i ≠ some "DAILY") (h2 : i ≠ some "WEEKLY")
    (h3 : i ≠ some "MONTHLY") (h4 : i ≠ some "YEARLY") :
    calculateNextRecurringDate d i = d := by
  rcases i with _ | s
  · rfl
  · have n1 : ¬ s = "DAILY" := fun he => h1 (by rw [he])
    have n2 : ¬ s = "WEEKLY" := fun he => h2 (by rw [he])
    have n3 : ¬ s = "MONTHLY" := fun he => h3 (by rw [he])
    have n4 : ¬ s = "YEARLY" := fun he => h4 (by rw [he])
    simp only [calculateNextRecurringDate]
    rw [if_neg n1, if_neg n2, if_neg n3, if_neg n4]

/-- Witness for C8 at an unknown and at an absent interval. -/
theorem nextOccurrence_unknown_interval_noop_witness :
    calculateNextRecurringDate ⟨2024, 5, 15⟩ (some "HOURLY") = ⟨2024, 5, 15⟩ ∧
      calculateNextRecurringDate ⟨2024, 5, 15⟩ none = ⟨2024, 5, 15⟩ :=
  ⟨nextOccurrence_unknown_interval_noop ⟨2024, 5, 15⟩ (some "HOURLY")
      (by decide) (by decide) (by decide) (by decide),
    nextOccurrence_unknown_interval_noop ⟨2024, 5, 15⟩ none
      (by decide) (by decide) (by decide) (by decide)⟩

/-- C10: a transaction whose lastProcessed is set but whose
nextRecurringDate is null is treated as due by the due-check of the
Processor, because the null next-due date coerces to the epoch. -/
theorem dueCheck_null_nextDate_due (now : JSDate) (t : Transaction) (d0 : JSDate)
    (hlp : t.lastProcessed = some d0)
    (hnrd : t.nextRecurringDate = none)
    (hepoch : dateLe epochDate now = true) :
    isTransactionDue now t = true := by
  rcases t with ⟨tid, tuid, taid, ttype, tamount, tdesc, tdate, tcat, tstatus, trec, tint, tlp, tnrd⟩
  simp only at hlp hnrd
  subst hlp
  subst hnrd
  simpa [isTransactionDue] using hepoch

/-- Witness for C10 at a concrete processed template with a null
next-due date. -/
theorem dueCheck_null_nextDate_due_witness :
    isTransactionDue witnessNow
      { recurTemplate with
        lastProcessed := some ⟨2024, 4, 1⟩
        nextRecurringDate := none } = true :=
  dueCheck_null_nextDate_due witnessNow _ ⟨2024, 4, 1⟩ rfl rfl (by decide)

/-- Row-wise template update does not change the fields the re-fetch
filter reads, so the re-fetch sees the updated first match. -/
theorem findTransaction_after_template_update (l : List Transaction) (now : JSDate)
    (t : Transaction) (tid uid : Nat) :
    (l.map (updateTemplateRow now t)).find? (fun u => u.id == tid && u.userId == uid)
      = (l.find? (fun u => u.id == tid && u.userId == uid)).map (updateTemplateRow now t) := by
  rw [List.find?_map]
  have hc : ((fun u => u.id == tid && u.userId == uid) ∘ updateTemplateRow now t)
      = (fun u : Transaction => u.id == tid && u.userId == uid) := by
    funext u
    simp only [Function.comp_apply, updateTemplateRow]
    split <;> rfl
  rw [hc]

/-- Balance update does not change account ids, so an account lookup
after it sees the incremented first match. -/
theorem findAccount_after_balance_update (l : List Account) (aid : Nat) (ch : Rat) :
    (updateAccountBalance l aid ch).find? (fun a => a.id == aid)
      = (l.find? (fun a => a.id == aid)).map
          (fun a => if a.id == aid then { a with balance := a.balance + ch } else a) := by
  unfold updateAccountBalance
  rw [List.find?_map]
  have hc : ((fun a => a.id == aid) ∘
        (fun a : Account => if a.id == aid then { a with balance := a.balance + ch } else a))
      = (fun a : Account => a.id == aid) := by
    funext a
    simp only [Function.comp_apply]
    split <;> rfl
  rw [hc]

/-- C1: when the balance-update step of the atomic unit fails, the
interactive transaction rolls back: the Processor leaves the store
exactly as it was (no spawned posting, template untouched, balances
untouched) and commits zero writes. -/
theorem processor_rollback_atomic (now : JSDate) (fid : Nat) (ev : RecurringEvent) (db : DB) :
    (processRecurringTransaction now fid true ev db).db = db ∧
      (processRecurringTransaction now fid true ev db).storeWrites = 0 := by
  rcases ev with ⟨otid, ouid⟩
  rcases otid with _ | tid
  · exact ⟨rfl, rfl⟩
  · rcases ouid with _ | uid
    · exact ⟨rfl, rfl⟩
    · unfold processRecurringTransaction
      dsimp only
      cases hf : findTransaction db tid uid with
      | none => exact ⟨rfl, rfl⟩
      | some t =>
        dsimp only
        by_cases hdue : isTransactionDue now t = true
        · rw [if_pos hdue]
          have hrun : runAtomicUnit now fid true t db = none := rfl
          rw [hrun]
          exact ⟨rfl, rfl⟩
        · rw [if_neg hdue]
          exact ⟨rfl, rfl⟩

/-- C9: a "process one recurring transaction" payload missing
transactionId or userId makes the Processor return the validation
failure value, performing no store read and no store write and leaving
the store untouched. -/
theorem processor_invalid_event (now : JSDate) (fid : Nat) (bf : Bool)
    (ev : RecurringEvent) (db : DB)
    (h : ev.transactionId = none ∨ ev.userId = none) :
    processRecurringTransaction now fid bf ev db
      = { result := ProcResult.invalidEvent, db := db, storeReads := 0, storeWrites := 0 } := by
  rcases ev with ⟨otid, ouid⟩
  simp only at h
  rcases otid with _ | tid
  · rcases ouid with _ | uid <;> rfl
  · rcases ouid with _ | uid
    · rfl
    · simp at h

/-- Witness for C9 at a payload missing its transactionId. -/
theorem processor_invalid_event_witness :
    processRecurringTransaction witnessNow 7 false ⟨none, some 2⟩ procDB
      = { result := ProcResult.invalidEvent, db := procDB, storeReads := 0, storeWrites := 0 } :=
  processor_invalid_event witnessNow 7 false ⟨none, some 2⟩ procDB (Or.inl rfl)

/-- Characterization of one successful Processor run on a found, due
template: the committed store appends the spawned posting, increments
the owning balance and rewrites the template row. -/
theorem processor_success_eq (now : JSDate) (fid tid uid : Nat) (db : DB) (t : Transaction)
    (hfind : findTransaction db tid uid = some t)
    (hdue : isTransactionDue now t = true) :
    processRecurringTransaction now fid false ⟨some tid, some uid⟩ db
      = { result := ProcResult.processed,
          db := { transactions :=
                    (db.transactions ++ [spawnedPosting now fid t]).map (updateTemplateRow now t),
                  accounts := updateAccountBalance db.accounts t.accountId (balanceChange t),
                  budgets := db.budgets },
          storeReads := 1, storeWrites := 3 } := by
  have hrun : runAtomicUnit now fid false t db
      = some { transactions :=
                 (db.transactions ++ [spawnedPosting now fid t]).map (updateTemplateRow now t),
               accounts := updateAccountBalance db.accounts t.accountId (balanceChange t),
               budgets := db.budgets } := rfl
  unfold processRecurringTransaction
  dsimp only
  rw [hfind]
  dsimp only
  rw [if_pos hdue, hrun]

/-- C2: one successful run on a found, due recurring template (with
one of the four interval kinds) reports success, appends exactly one
posting, adjusts the owning balance by exactly the signed amount once,
and an immediately repeated invocation re-fetches the template, finds
it no longer due, and is a no-op committing no write. -/
theorem processor_idempotent_per_cycle (now : JSDate) (fid1 fid2 tid uid : Nat)
    (db : DB) (t : Transaction) (i : String)
    (hfind : findTransaction db tid uid = some t)
    ( _hrec : t.isRecurring = true)
    (hint : t.recurringInterval = some i)
    (hi : i = "DAILY" ∨ i = "WEEKLY" ∨ i = "MONTHLY" ∨ i = "YEARLY")
    (hdue : isTransactionDue now t = true)
    (hday : 1 ≤ now.day) :
    (processRecurringTransaction now fid1 false ⟨some tid, some uid⟩ db).result
        = ProcResult.processed ∧
      (processRecurringTransaction now fid1 false ⟨some tid, some uid⟩ db).db.transactions.length
        = db.transactions.length + 1 ∧
      (∀ a0, findAccount db t.accountId = some a0 →
        findAccount (processRecurringTransaction now fid1 false ⟨some tid, some uid⟩ db).db
            t.accountId
          = some { a0 with balance := a0.balance + balanceChange t }) ∧
      processRecurringTransaction now fid2 false (⟨some tid, some uid⟩ : RecurringEvent)
          (processRecurringTransaction now fid1 false ⟨some tid, some uid⟩ db).db
        = { result := ProcResult.noop,
            db := (processRecurringTransaction now fid1 false ⟨some tid, some uid⟩ db).db,
            storeReads := 1, storeWrites := 0 } := by
  rw [processor_success_eq now fid1 tid uid db t hfind hdue]
  refine ⟨rfl, ?_, ?_, ?_⟩
  · dsimp only
    rw [List.length_map, List.length_append]
    rfl
  · intro a0 ha0
    unfold findAccount
    dsimp only
    rw [findAccount_after_balance_update]
    unfold findAccount at ha0
    rw [ha0]
    have hid := List.find?_some ha0
    simp only [Option.map]
    rw [if_pos hid]
  · have hfind2 : findTransaction
        (⟨(db.transactions ++ [spawnedPosting now fid1 t]).map (updateTemplateRow now t),
          updateAccountBalance db.accounts t.accountId (balanceChange t), db.budgets⟩ : DB)
        tid uid = some (updateTemplateRow now t t) := by
      unfold findTransaction
      dsimp only
      rw [findTransaction_after_template_update, List.find?_append]
      unfold findTransaction at hfind
      rw [hfind]
      rfl
    have hupd : updateTemplateRow now t t
        = { t with
            lastProcessed := some now
            nextRecurringDate := some (calculateNextRecurringDate now t.recurringInterval) } := by
      unfold updateTemplateRow
      rw [if_pos (by simp)]
    have hnotdue : isTransactionDue now (updateTemplateRow now t t) = false := by
      rw [hupd]
      have hlt := dateLt_calcNext now hday i hi
      have hfalse := dateLe_false_of_dateLt now (calculateNextRecurringDate now (some i)) hlt
      simp [isTransactionDue, hint, hfalse]
    unfold processRecurringTransaction
    dsimp only
    rw [hfind2]
    dsimp only
    rw [if_neg (by rw [hnotdue]; exact Bool.false_ne_true)]

/-- Witness for C2: concrete due template processed once, then again. -/
theorem processor_idempotent_per_cycle_witness :
    (processRecurringTransaction witnessNow 10 false ⟨some 1, some 2⟩ procDB).result
        = ProcResult.processed ∧
      (processRecurringTransaction witnessNow 10 false ⟨some 1, some 2⟩ procDB).db.transactions.length
        = procDB.transactions.length + 1 ∧
      (∀ a0, findAccount procDB recurTemplate.accountId = some a0 →
        findAccount (processRecurringTransaction witnessNow 10 false ⟨some 1, some 2⟩ procDB).db
            recurTemplate.accountId
          = some { a0 with balance := a0.balance + balanceChange recurTemplate }) ∧
      processRecurringTransaction witnessNow 11 false (⟨some 1, some 2⟩ : RecurringEvent)
          (processRecurringTransaction witnessNow 10 false ⟨some 1, some 2⟩ procDB).db
        = { result := ProcResult.noop,
            db := (processRecurringTransaction witnessNow 10 false ⟨some 1, some 2⟩ procDB).db,
            storeReads := 1, storeWrites := 0 } :=
  processor_idempotent_per_cycle witnessNow 10 11 1 2 procDB recurTemplate "DAILY"
    (by decide) (by decide) (by decide) (Or.inl rfl) (by decide) (by decide)

/-- C4: when the notification send fails, the step aborts before the
persist runs: the store (hence lastAlertSent) is unchanged and no
alert is recorded as sent. -/
theorem alert_notify_before_commit (now : JSDate) (db : DB) (b : Budget) :
    (checkBudgetAlert now true db b).2 = db ∧
      ((checkBudgetAlert now true db b).1 = AlertOutcome.skipped ∨
        (checkBudgetAlert now true db b).1 = AlertOutcome.sendFailed) := by
  unfold checkBudgetAlert
  cases hacct : defaultAccountOf db b.userId with
  | none => exact ⟨rfl, Or.inl rfl⟩
  | some acct =>
    dsimp only
    by_cases hc : 80 ≤ percentageUsed db b.userId acct.id b.amount now ∧ b.lastAlertSent = none
    · rw [if_pos hc]
      exact ⟨rfl, Or.inr rfl⟩
    · rw [if_neg hc]
      exact ⟨rfl, Or.inl rfl⟩

/-- Alert-timestamp update does not change budget ids, so a budget
lookup after it sees the updated first match. -/
theorem findBudget_after_alert_update (l : List Budget) (bid : Nat) (now : JSDate) :
    (l.map (fun x => if x.id == bid then { x with lastAlertSent := some now } else x)).find?
        (fun x => x.id == bid)
      = (l.find? (fun x => x.id == bid)).map
          (fun x => if x.id == bid then { x with lastAlertSent := some now } else x) := by
  rw [List.find?_map]
  have hc : ((fun x => x.id == bid) ∘
        (fun x : Budget => if x.id == bid then { x with lastAlertSent := some now } else x))
      = (fun x : Budget => x.id == bid) := by
    funext x
    simp only [Function.comp_apply]
    split <;> rfl
  rw [hc]

/-- Equation for a firing run of the per-budget check. -/
theorem checkBudgetAlert_eq_sent (now : JSDate) (db : DB) (b : Budget) (acct : Account)
    (hacct : defaultAccountOf db b.userId = some acct)
    (hc : 80 ≤ percentageUsed db b.userId acct.id b.amount now ∧ b.lastAlertSent = none) :
    checkBudgetAlert now false db b = (AlertOutcome.sent, updateBudgetAlert db b.id now) := by
  unfold checkBudgetAlert
  rw [hacct]
  dsimp only
  rw [if_pos hc]
  rfl

/-- A budget whose lastAlertSent is set is always skipped with no
state change. -/
theorem checkBudgetAlert_skip_of_sent (now : JSDate) (ef : Bool) (db : DB) (b : Budget)
    (d : JSDate) (hb : b.lastAlertSent = some d) :
    checkBudgetAlert now ef db b = (AlertOutcome.skipped, db) := by
  unfold checkBudgetAlert
  cases hacct : defaultAccountOf db b.userId with
  | none => rfl
  | some acct =>
    dsimp only
    rw [if_neg (fun hcc => by rw [hb] at hcc; exact Option.noConfusion hcc.2)]

/-- C3: with a resolved default account, the evaluator fires exactly
when percentageUsed is at least 80 and lastAlertSent is unset; on
firing it persists lastAlertSent = now, and re-running it immediately
on the committed state fires nothing and changes nothing. -/
theorem alert_one_shot (now : JSDate) (db : DB) (b : Budget) (acct : Account)
    (hfindb : findBudget db b.id = some b)
    (hacct : defaultAccountOf db b.userId = some acct) :
    ((checkBudgetAlert now false db b).1 = AlertOutcome.sent ↔
        (80 ≤ percentageUsed db b.userId acct.id b.amount now ∧ b.lastAlertSent = none)) ∧
      (80 ≤ percentageUsed db b.userId acct.id b.amount now → b.lastAlertSent = none →
        findBudget (checkBudgetAlert now false db b).2 b.id
            = some { b with lastAlertSent := some now } ∧
          checkBudgetAlert now false (checkBudgetAlert now false db b).2
              { b with lastAlertSent := some now }
            = (AlertOutcome.skipped, (checkBudgetAlert now false db b).2)) := by
  by_cases hc : 80 ≤ percentageUsed db b.userId acct.id b.amount now ∧ b.lastAlertSent = none
  · rw [checkBudgetAlert_eq_sent now db b acct hacct hc]
    refine ⟨⟨fun _ => hc, fun _ => rfl⟩, fun h80 hnone => ⟨?_, ?_⟩⟩
    · show findBudget (updateBudgetAlert db b.id now) b.id
        = some { b with lastAlertSent := some now }
      unfold findBudget updateBudgetAlert
      dsimp only
      rw [findBudget_after_alert_update]
      unfold findBudget at hfindb
      rw [hfindb]
      simp only [Option.map]
      rw [if_pos (by simp)]
    · show checkBudgetAlert now false (updateBudgetAlert db b.id now)
          { b with lastAlertSent := some now }
        = (AlertOutcome.skipped, updateBudgetAlert db b.id now)
      exact checkBudgetAlert_skip_of_sent now false (updateBudgetAlert db b.id now)
        { b with lastAlertSent := some now } now rfl
  · have h1 : checkBudgetAlert now false db b = (AlertOutcome.skipped, db) := by
      unfold checkBudgetAlert
      rw [hacct]
      dsimp only
      rw [if_neg hc]
    rw [h1]
    exact ⟨⟨fun hs => AlertOutcome.noConfusion hs, fun hrhs => (hc hrhs).elim⟩,
      fun h80 hnone => (hc ⟨h80, hnone⟩).elim⟩

/-- Witness for C3: budget of amount 100, month-to-date expenses 85 on
the default account, no alert sent yet. -/
theorem alert_one_shot_witness :
    ((checkBudgetAlert witnessNow false alertDB alertBudget).1 = AlertOutcome.sent ↔
        (80 ≤ percentageUsed alertDB alertBudget.userId 3 alertBudget.amount witnessNow ∧
          alertBudget.lastAlertSent = none)) ∧
      (80 ≤ percentageUsed alertDB alertBudget.userId 3 alertBudget.amount witnessNow →
        alertBudget.lastAlertSent = none →
        findBudget (checkBudgetAlert witnessNow false alertDB alertBudget).2 alertBudget.id
            = some { alertBudget with lastAlertSent := some witnessNow } ∧
          checkBudgetAlert witnessNow false
              (checkBudgetAlert witnessNow false alertDB alertBudget).2
              { alertBudget with lastAlertSent := some witnessNow }
            = (AlertOutcome.skipped, (checkBudgetAlert witnessNow false alertDB alertBudget).2)) :=
  alert_one_shot witnessNow alertDB alertBudget
    { id := 3, userId := 2, name := "Main", balance := 100, isDefault := true }
    (by decide) (by decide)

/-- C5: the Due-Transaction Selector returns exactly the transactions
that are recurring, COMPLETED, and have lastProcessed unset or a set
nextRecurringDate at most now; in particular nothing failing the
status filter is returned.  The fetch is a pure read of the store. -/
theorem selector_returns_exactly_due (now : JSDate) (db : DB) (t : Transaction) :
    (t ∈ fetchDueRecurring now db ↔
        (t ∈ db.transactions ∧ t.isRecurring = true ∧ t.status = "COMPLETED" ∧
          (t.lastProcessed = none ∨
            ∃ d, t.nextRecurringDate = some d ∧ dateLe d now = true))) ∧
      (¬ t.status = "COMPLETED" → ¬ t ∈ fetchDueRecurring now db) := by
  have hiff : t ∈ fetchDueRecurring now db ↔
      (t ∈ db.transactions ∧ t.isRecurring = true ∧ t.status = "COMPLETED" ∧
        (t.lastProcessed = none ∨
          ∃ d, t.nextRecurringDate = some d ∧ dateLe d now = true)) := by
    unfold fetchDueRecurring dueFilterPred
    rw [List.mem_filter]
    cases htn : t.nextRecurringDate with
    | none =>
      simp only [htn, Bool.and_eq_true, Bool.or_eq_true, beq_iff_eq,
        Option.isNone_iff_eq_none]
      constructor
      · rintro ⟨hmem, ⟨hrec, hst⟩, hdue⟩
        rcases hdue with hlp | hfalse
        · exact ⟨hmem, hrec, hst, Or.inl hlp⟩
        · exact absurd hfalse (by simp)
      · rintro ⟨hmem, hrec, hst, hlp | ⟨d, hd, _⟩⟩
        · exact ⟨hmem, ⟨hrec, hst⟩, Or.inl hlp⟩
        · exact absurd hd (by simp)
    | some d =>
      simp only [htn, Bool.and_eq_true, Bool.or_eq_true, beq_iff_eq,
        Option.isNone_iff_eq_none, Option.some.injEq]
      constructor
      · rintro ⟨hmem, ⟨hrec, hst⟩, hlp | hle⟩
        · exact ⟨hmem, hrec, hst, Or.inl hlp⟩
        · exact ⟨hmem, hrec, hst, Or.inr ⟨d, rfl, hle⟩⟩
      · rintro ⟨hmem, hrec, hst, hlp | ⟨d2, hd2, hle⟩⟩
        · exact ⟨hmem, ⟨hrec, hst⟩, Or.inl hlp⟩
        · cases hd2
          exact ⟨hmem, ⟨hrec, hst⟩, Or.inr hle⟩
  exact ⟨hiff, fun hst hmem => hst (hiff.mp hmem).2.2.1⟩

/-- Witness for C5: the concrete due template is selected. -/
theorem selector_returns_exactly_due_witness :
    recurTemplate ∈ fetchDueRecurring witnessNow procDB :=
  (selector_returns_exactly_due witnessNow procDB recurTemplate).1.mpr
    ⟨by decide, by decide, by decide, Or.inl (by decide)⟩

/-- Assignment into the category object changes exactly the assigned
key. -/
theorem lookupCat_setCat (m : List (String × Rat)) (k : String) (v : Rat) (c : String) :
    lookupCat (setCat m k v) c = if k = c then some v else lookupCat m c := by
  induction m with
  | nil => simp only [setCat, lookupCat]
  | cons kv rest ih =>
    obtain ⟨k0, v0⟩ := kv
    by_cases h0 : k0 = k
    · subst h0
      by_cases h1 : k0 = c
      · subst h1
        simp [setCat, lookupCat]
      · simp [setCat, lookupCat, h1]
    · by_cases h1 : k0 = c
      · subst h1
        have hkc : ¬ k = k0 := fun he => h0 he.symm
        simp [setCat, lookupCat, h0, hkc]
      · simp [setCat, lookupCat, h0, h1, ih]

/-- The category bump adds the amount to exactly its own bucket. -/
theorem categoryTotal_bump (m : List (String × Rat)) (k : String) (v : Rat) (c : String) :
    categoryTotal (bumpCategory m k v) c
      = categoryTotal m c + (if k = c then v else 0) := by
  unfold categoryTotal bumpCategory
  rw [lookupCat_setCat]
  by_cases h : k = c
  · subst h
    rw [if_pos rfl, if_pos rfl]
    rfl
  · rw [if_neg h, if_neg h]
    exact (add_zero _).symm

/-- The reducer accumulates totalExpenses as the sum of EXPENSE
amounts. -/
theorem foldl_stats_totalExpenses (l : List Transaction) (s : Stats) :
    (l.foldl statsStep s).totalExpenses
      = s.totalExpenses + sumAmounts (l.filter (fun u => u.type == "EXPENSE")) := by
  induction l generalizing s with
  | nil => simp [sumAmounts]
  | cons u rest ih =>
    rw [List.foldl_cons, ih]
    by_cases hu : u.type = "EXPENSE"
    · rw [List.filter_cons, if_pos (by simp [hu])]
      have hstep : (statsStep s u).totalExpenses = s.totalExpenses + u.amount := by
        simp [statsStep, if_pos hu]
      rw [hstep]
      simp only [sumAmounts, List.map_cons, List.sum_cons]
      ring
    · rw [List.filter_cons, if_neg (by simp [hu])]
      have hstep : (statsStep s u).totalExpenses = s.totalExpenses := by
        simp [statsStep, if_neg hu]
      rw [hstep]

/-- The reducer accumulates totalIncome as the sum of INCOME amounts,
for stores whose posting types are INCOME or EXPENSE. -/
theorem foldl_stats_totalIncome (l : List Transaction) (s : Stats)
    (h : ∀ u ∈ l, u.type = "INCOME" ∨ u.type = "EXPENSE") :
    (l.foldl statsStep s).totalIncome
      = s.totalIncome + sumAmounts (l.filter (fun u => u.type == "INCOME")) := by
  revert h
  induction l generalizing s with
  | nil =>
    intro h
    simp [sumAmounts]
  | cons u rest ih =>
    intro h
    have hu := h u (List.mem_cons_self u rest)
    have hrest : ∀ x ∈ rest, x.type = "INCOME" ∨ x.type = "EXPENSE" :=
      fun x hx => h x (List.mem_cons_of_mem u hx)
    rw [List.foldl_cons, ih (statsStep s u) hrest]
    rcases hu with hu | hu
    · rw [List.filter_cons, if_pos (by simp [hu])]
      have hne : ¬ u.type = "EXPENSE" := by rw [hu]; decide
      have hstep : (statsStep s u).totalIncome = s.totalIncome + u.amount := by
        simp [statsStep, if_neg hne]
      rw [hstep]
      simp only [sumAmounts, List.map_cons, List.sum_cons]
      ring
    · rw [List.filter_cons, if_neg (by simp [hu])]
      have hstep : (statsStep s u).totalIncome = s.totalIncome := by
        simp [statsStep, if_pos hu]
      rw [hstep]

/-- The reducer accumulates each category bucket as the sum of the
EXPENSE amounts bearing that category. -/
theorem foldl_stats_byCategory (l : List Transaction) (s : Stats) (c : String) :
    categoryTotal (l.foldl statsStep s).byCategory c
      = categoryTotal s.byCategory c
        + sumAmounts (l.filter (fun u => u.type == "EXPENSE" && u.category == c)) := by
  induction l generalizing s with
  | nil => simp [sumAmounts]
  | cons u rest ih =>
    rw [List.foldl_cons, ih]
    by_cases hu : u.type = "EXPENSE"
    · have hstep : (statsStep s u).byCategory = bumpCategory s.byCategory u.category u.amount := by
        simp [statsStep, if_pos hu]
      rw [hstep, categoryTotal_bump]
      by_cases hcat : u.category = c
      · rw [List.filter_cons, if_pos hcat,
          if_pos (show (u.type == "EXPENSE" && u.category == c) = true by simp [hu, hcat])]
        simp only [sumAmounts, List.map_cons, List.sum_cons]
        ring
      · rw [List.filter_cons, if_neg hcat,
          if_neg (show ¬ (u.type == "EXPENSE" && u.category == c) = true by simp [hcat])]
        ring
    · have hstep : (statsStep s u).byCategory = s.byCategory := by
        simp [statsStep, if_neg hu]
      rw [hstep, List.filter_cons, if_neg (by simp [hu])]

/-- The reducer never touches transactionCount. -/
theorem foldl_stats_count (l : List Transaction) (s : Stats) :
    (l.foldl statsStep s).transactionCount = s.transactionCount := by
  induction l generalizing s with
  | nil => rfl
  | cons u rest ih =>
    rw [List.foldl_cons, ih]
    by_cases hu : u.type = "EXPENSE"
    · simp [statsStep, if_pos hu]
    · simp [statsStep, if_neg hu]

/-- C6: for stores whose posting types are INCOME or EXPENSE, the
Monthly Stats Aggregator reduces exactly the postings of the owner
dated within the closed month interval into the INCOME sum, the
EXPENSE sum, per-category EXPENSE sums and the fetched count; and on
the fixed posting set EXPENSE 50 food, EXPENSE 30 food, INCOME 200 it
yields totals 80 and 200, byCategory food 80 and count 3. -/
theorem monthly_stats_correct (db : DB) (uid : Nat) (month : JSDate)
    (htype : ∀ u ∈ db.transactions, u.type = "INCOME" ∨ u.type = "EXPENSE") :
    ((getMonthlyStats db uid month).totalIncome
        = sumAmounts ((db.transactions.filter (inMonthRange uid month)).filter
            (fun u => u.type == "INCOME"))
      ∧ (getMonthlyStats db uid month).totalExpenses
        = sumAmounts ((db.transactions.filter (inMonthRange uid month)).filter
            (fun u => u.type == "EXPENSE"))
      ∧ (∀ c, categoryTotal (getMonthlyStats db uid month).byCategory c
          = sumAmounts ((db.transactions.filter (inMonthRange uid month)).filter
              (fun u => u.type == "EXPENSE" && u.category == c)))
      ∧ (getMonthlyStats db uid month).transactionCount
        = (db.transactions.filter (inMonthRange uid month)).length)
      ∧ ((getMonthlyStats statsDB 1 statsMonth).totalExpenses = 80
        ∧ (getMonthlyStats statsDB 1 statsMonth).totalIncome = 200
        ∧ categoryTotal (getMonthlyStats statsDB 1 statsMonth).byCategory "food" = 80
        ∧ (getMonthlyStats statsDB 1 statsMonth).transactionCount = 3) := by
  have hne : ("INCOME" : String) ≠ "EXPENSE" := by decide
  refine ⟨⟨?_, ?_, ?_, ?_⟩,
    by norm_num [getMonthlyStats, statsDB, statsMonth, inMonthRange, startOfMonthDate,
      endOfMonthDate, daysInMonth, isLeapYear, dateLe, statsStep, bumpCategory, setCat,
      lookupCat, categoryTotal, sumAmounts, hne],
    by norm_num [getMonthlyStats, statsDB, statsMonth, inMonthRange, startOfMonthDate,
      endOfMonthDate, daysInMonth, isLeapYear, dateLe, statsStep, bumpCategory, setCat,
      lookupCat, categoryTotal, sumAmounts, hne],
    by norm_num [getMonthlyStats, statsDB, statsMonth, inMonthRange, startOfMonthDate,
      endOfMonthDate, daysInMonth, isLeapYear, dateLe, statsStep, bumpCategory, setCat,
      lookupCat, categoryTotal, sumAmounts, hne],
    by norm_num [getMonthlyStats, statsDB, statsMonth, inMonthRange, startOfMonthDate,
      endOfMonthDate, daysInMonth, isLeapYear, dateLe, statsStep, bumpCategory, setCat,
      lookupCat, categoryTotal, sumAmounts, hne]⟩
  · rw [show getMonthlyStats db uid month
        = (db.transactions.filter (inMonthRange uid month)).foldl statsStep
            { totalExpenses := 0, totalIncome := 0, byCategory := [],
              transactionCount := (db.transactions.filter (inMonthRange uid month)).length }
        from rfl]
    rw [foldl_stats_totalIncome _ _
      (fun x hx => htype x (List.mem_of_mem_filter hx))]
    exact zero_add _
  · rw [show getMonthlyStats db uid month
        = (db.transactions.filter (inMonthRange uid month)).foldl statsStep
            { totalExpenses := 0, totalIncome := 0, byCategory := [],
              transactionCount := (db.transactions.filter (inMonthRange uid month)).length }
        from rfl]
    rw [foldl_stats_totalExpenses]
    exact zero_add _
  · intro c
    rw [show getMonthlyStats db uid month
        = (db.transactions.filter (inMonthRange uid month)).foldl statsStep
            { totalExpenses := 0, totalIncome := 0, byCategory := [],
              transactionCount := (db.transactions.filter (inMonthRange uid month)).length }
        from rfl]
    rw [foldl_stats_byCategory]
    exact zero_add _
  · rw [show getMonthlyStats db uid month
        = (db.transactions.filter (inMonthRange uid month)).foldl statsStep
            { totalExpenses := 0, totalIncome := 0, byCategory := [],
              transactionCount := (db.transactions.filter (inMonthRange uid month)).length }
        from rfl]
    rw [foldl_stats_count]

/-- Witness for C6 on the fixed posting set of the claim. -/
theorem monthly_stats_correct_witness :
    (getMonthlyStats statsDB 1 statsMonth).totalExpenses = 80 ∧
      (getMonthlyStats statsDB 1 statsMonth).totalIncome = 200 ∧
      categoryTotal (getMonthlyStats statsDB 1 statsMonth).byCategory "food" = 80 ∧
      (getMonthlyStats statsDB 1 statsMonth).transactionCount = 3 :=
  (monthly_stats_correct statsDB 1 statsMonth (by decide)).2
